import Mathlib

/-!
Verification of the quPSKd repository (qupskd.py, ukms.py, qkd_simulator.py):
a shallow embedding of the PSK rotation daemons and proofs about the
rotation protocol, the commutative PSK derivation, and the HTTP handlers.

The embedding follows the Python source: SHA3-256 is implemented concretely
(Keccak-f[1600] over Nat with explicit 64-bit masking), strings are compared
the way Python compares them (lexicographically on code points, modelled via
the order on their character lists), and fallible network calls are modelled
with Option-valued oracles.
-/

namespace SHA3

def MASK64 : Nat := 2 ^ 64 - 1

def rotl64 (x n : Nat) : Nat :=
  ((x <<< n) ||| (x >>> (64 - n))) &&& MASK64

/-- One step of the FIPS 202 round-constant LFSR (x^8 + x^6 + x^5 + x^4 + 1),
register kept least-significant-bit first. -/
def rcStep (R : Nat) : Nat :=
  let R9 := R <<< 1
  let b8 := (R9 >>> 8) &&& 1
  (R9 ^^^ (b8 * 0x71)) &&& 0xFF

/-- rc(t) of FIPS 202: bit 0 of the register after t LFSR steps from 1. -/
def rcBit (t : Nat) : Nat := (rcStep^[t] 1) &&& 1

/-- The 24 Keccak-f[1600] round constants: bit 2^j - 1 of constant i is
rc(j + 7 i). -/
def RC : List Nat :=
  (List.range 24).map fun i =>
    (List.range 7).foldl (fun acc j => acc ||| (rcBit (j + 7 * i) <<< (2 ^ j - 1))) 0

/-- The FIPS 202 rotation-offset walk: after t steps it holds the current
lane coordinates and the offsets assigned so far (offset (t+1)(t+2)/2 mod 64
at the current lane, then (x, y) becomes (y, (2x + 3y) mod 5), from (1,0)). -/
def rhoWalk : Nat → (Nat × Nat) × List (Nat × Nat)
  | 0 => ((1, 0), [])
  | t + 1 =>
    let prev := rhoWalk t
    let x := prev.1.1
    let y := prev.1.2
    ((y, (2 * x + 3 * y) % 5),
     (x + 5 * y, ((t + 1) * (t + 2) / 2) % 64) :: prev.2)

/-- The 25 rotation offsets of ρ, in lane order x + 5*y (lane 0 stays 0). -/
def rhoOffsets : List Nat :=
  (List.range 25).map fun j =>
    ((((rhoWalk 24).2).find? (fun p => p.1 == j)).map Prod.snd).getD 0

/-- One Keccak-f[1600] round on a 25-lane state (lane index x + 5*y). -/
def keccakRound (A : List Nat) (rc : Nat) : List Nat :=
  let get := fun (l : List Nat) (i : Nat) => l.getD i 0
  let C := (List.range 5).map fun x =>
    get A x ^^^ get A (x + 5) ^^^ get A (x + 10) ^^^ get A (x + 15) ^^^ get A (x + 20)
  let D := (List.range 5).map fun x =>
    get C ((x + 4) % 5) ^^^ rotl64 (get C ((x + 1) % 5)) 1
  let A1 := (List.range 25).map fun j => get A j ^^^ get D (j % 5)
  let B := (List.range 25).map fun j =>
    let x := j % 5
    let y := j / 5
    let src := ((x + 3 * y) % 5) + 5 * x
    rotl64 (get A1 src) (get rhoOffsets src)
  let A2 := (List.range 25).map fun j =>
    let x := j % 5
    let y := j / 5
    get B j ^^^ ((get B (((x + 1) % 5) + 5 * y) ^^^ MASK64) &&& get B (((x + 2) % 5) + 5 * y))
  match A2 with
  | a0 :: rest => (a0 ^^^ rc) :: rest
  | [] => []

def keccakF (A : List Nat) : List Nat := RC.foldl keccakRound A

/-- SHA3 pad10*1 with domain suffix 0x06, to a multiple of the 136-byte rate. -/
def pad (msg : List Nat) : List Nat :=
  let q := 136 - msg.length % 136
  if q = 1 then msg ++ [0x86]
  else msg ++ [0x06] ++ List.replicate (q - 2) 0 ++ [0x80]

/-- Interpret 8 bytes (little-endian) as one 64-bit lane. -/
def bytesToLane (bs : List Nat) : Nat :=
  bs.foldr (fun b acc => acc * 256 + b) 0

def laneToBytes (x : Nat) : List Nat :=
  (List.range 8).map fun k => (x >>> (8 * k)) % 256

/-- Split a list into chunks of 136 bytes (fuel-driven structural recursion,
so that the kernel can evaluate it). -/
def chunksF : Nat → List Nat → List (List Nat)
  | 0, _ => []
  | _, [] => []
  | fuel + 1, l => (l.take 136) :: chunksF fuel (l.drop 136)

def chunks (l : List Nat) : List (List Nat) := chunksF l.length l

/-- XOR one 136-byte block into the first 17 lanes of the state. -/
def absorbBlock (A : List Nat) (block : List Nat) : List Nat :=
  (List.range 25).map fun j =>
    if j < 17 then
      A.getD j 0 ^^^ bytesToLane ((block.drop (8 * j)).take 8)
    else A.getD j 0

/-- SHA3-256 digest (32 bytes) of a byte list. -/
def sha3_256_bytes (msg : List Nat) : List Nat :=
  let blocks := chunks (pad msg)
  let final := blocks.foldl (fun A b => keccakF (absorbBlock A b)) (List.replicate 25 0)
  ((final.take 4).map laneToBytes).flatten

/-- UTF-8 encoding of one character, from its code point. -/
def utf8Char (c : Char) : List Nat :=
  let n := c.toNat
  if n < 0x80 then [n]
  else if n < 0x800 then [0xC0 ||| (n >>> 6), 0x80 ||| (n &&& 0x3F)]
  else if n < 0x10000 then
    [0xE0 ||| (n >>> 12), 0x80 ||| ((n >>> 6) &&& 0x3F), 0x80 ||| (n &&& 0x3F)]
  else
    [0xF0 ||| (n >>> 18), 0x80 ||| ((n >>> 12) &&& 0x3F),
     0x80 ||| ((n >>> 6) &&& 0x3F), 0x80 ||| (n &&& 0x3F)]

/-- UTF-8 encoding of a string as a byte list (Python str.encode()). -/
def utf8 (s : String) : List Nat := (s.toList.map utf8Char).flatten

def b64Alphabet : String :=
  "ABCDEFGHIJKLMNOPQRSTUVWXYZabcdefghijklmnopqrstuvwxyz0123456789+/"

def b64Char (n : Nat) : Char := b64Alphabet.toList.getD n 'A'

/-- Standard base64 encoding of a byte list (Python base64.b64encode). -/
def b64encode : List Nat → String
  | b1 :: b2 :: b3 :: rest =>
    let n := b1 * 65536 + b2 * 256 + b3
    String.mk [b64Char (n / 262144), b64Char (n / 4096 % 64),
               b64Char (n / 64 % 64), b64Char (n % 64)] ++ b64encode rest
  | [b1, b2] =>
    let n := b1 * 65536 + b2 * 256
    String.mk [b64Char (n / 262144), b64Char (n / 4096 % 64), b64Char (n / 64 % 64), '=']
  | [b1] =>
    let n := b1 * 65536
    String.mk [b64Char (n / 262144), b64Char (n / 4096 % 64), '=', '=']
  | [] => ""

end SHA3

namespace PyStr

/-- Python string comparison: lexicographic on code points. Modelled through
the lexicographic order on the character lists (Char is ordered by code
point), which coincides with Python's ordering on str. -/
def pyLE (a b : String) : Prop := a.data ≤ b.data

instance : DecidableRel pyLE := fun a b => inferInstanceAs (Decidable (a.data ≤ b.data))

instance : IsTotal String pyLE := ⟨fun a b => le_total a.data b.data⟩

instance : IsTrans String pyLE := ⟨fun _ _ _ hab hbc => le_trans hab hbc⟩

instance : IsAntisymm String pyLE :=
  ⟨fun a b hab hba => by
    cases a; cases b
    exact congrArg String.mk (le_antisymm hab hba)⟩

/-- Python sorted() on a list of strings. -/
def sortStrings (l : List String) : List String := List.insertionSort pyLE l

/-- Two lists of strings that are permutations of each other sort identically. -/
theorem sortStrings_perm_eq {l l' : List String} (h : l.Perm l') :
    sortStrings l = sortStrings l' :=
  List.eq_of_perm_of_sorted
    ((List.perm_insertionSort _ l).trans (h.trans (List.perm_insertionSort _ l').symm))
    (List.sorted_insertionSort _ l) (List.sorted_insertionSort _ l')

/-- Split a character list on a separator (helper for Python str.split). -/
def splitAux (sep : Char) : List Char → List Char → List (List Char)
  | [], acc => [acc.reverse]
  | c :: rest, acc =>
    if c = sep then acc.reverse :: splitAux sep rest []
    else splitAux sep rest (c :: acc)

/-- Python str.split(sep) for a single-character separator. -/
def pySplit (sep : Char) (s : String) : List String :=
  (splitAux sep s.data []).map String.mk

/-- Does the pattern occur as a contiguous subsequence? (helper). -/
def hasSub : List Char → List Char → Bool
  | [], p => p.isEmpty
  | l@(_ :: t), p => p.isPrefixOf l || hasSub t p

/-- Python `pat in s` substring test. -/
def strHas (s pat : String) : Bool := hasSub s.data pat.data

/-- Python str.startswith. -/
def pyStarts (s pat : String) : Bool := pat.data.isPrefixOf s.data

/-- Python str.endswith. -/
def pyEnds (s pat : String) : Bool := pat.data.reverse.isPrefixOf s.data.reverse

/-- Python negative index lst[-2] for a list of strings. -/
def idxM2 (l : List String) : String := l.getD (l.length - 2) ""

end PyStr

namespace Http

/-- One HTTP response written by a handler: status code and body. -/
structure Resp where
  status : Nat
  body : String
  deriving DecidableEq

def notFound : Resp := { status := 404, body := "404 Not Found" }

end Http

namespace qupskd

def IDENTITY_STRING : String := "quPSKd Version 1"

def INITIATOR_WAIT_SECONDS : Int := 120

def RESPONDER_WAIT_SECONDS : Int := 130

/-- The configuration options of qupskd.py that the rotation protocol reads. -/
structure Config where
  psk : String
  target_KME_ID : String
  enable_fake_qkd_api : Bool

/-- sha3_base64 (qupskd.py lines 31-32):
base64(SHA3-256("".join(sorted(input)))). -/
def sha3_base64 (input : List String) : String :=
  SHA3.b64encode (SHA3.sha3_256_bytes (SHA3.utf8 (String.join (PyStr.sortStrings input))))

/-- The mutable daemon state (qupskd.py lines 35-41). -/
structure State where
  key : Option String
  key_ID : Option String
  last_rotate : Int
  initiator : Bool
  psk : String

/-- The initial state (qupskd.py lines 35-41): key and key_ID unset,
last_rotate -1, responder role, psk seeded from the configured long-term
secret and the identity string. -/
def initState (c : Config) : State :=
  { key := none
    key_ID := none
    last_rotate := -1
    initiator := false
    psk := sha3_base64 [c.psk, IDENTITY_STRING] }

/-- The deterministic fake QKD source (handle_keys line 114): the key bound
to an identifier is base64(SHA3-256(key_ID)). Both enc_keys and dec_keys
return this value for a given key_ID. -/
def qkd_key (key_ID : String) : String :=
  SHA3.b64encode (SHA3.sha3_256_bytes (SHA3.utf8 key_ID))

/-- psk_update (qupskd.py lines 73-80): derive the next psk from
[key, key_ID, previous psk], sorted, concatenated, hashed, base64-encoded.
Python raises a TypeError when key or key_ID is still None (sorted over
None); this is modelled by returning none. Writing the key file / calling
the wireguard helper (lines 81-91) is the external apply boundary and is
not part of the state model. -/
def psk_update (s : State) : Option State :=
  match s.key, s.key_ID with
  | some key, some key_ID =>
    some { s with psk :=
      SHA3.b64encode (SHA3.sha3_256_bytes (SHA3.utf8
        (String.join (PyStr.sortStrings [key, key_ID, s.psk])))) }
  | _, _ => none

/-- JSON body of the fake-QKD keys response (json.dumps rendering). -/
def keysJson (key key_ID : String) : String :=
  "\x7b\"keys\": [\x7b\"key\": \"" ++ key ++ "\", \"key_ID\": \"" ++ key_ID ++ "\"\x7d]\x7d"

/-- handle_keys (qupskd.py lines 103-129): the fake QKD API. A dec_keys
request must carry a key_ID= parameter; enc_keys requests draw a fresh
uuid. The returned key is the deterministic hash of the identifier. -/
def handle_keys (path : String) (fresh_uuid : String) : Http.Resp :=
  if PyStr.strHas path "dec_keys" && !(PyStr.strHas path "key_ID=") then
    { status := 400, body := "key_ID parameter is required" }
  else
    let key_ID := if PyStr.strHas path "dec_keys" then
        (PyStr.pySplit '=' path).getLastD ""
      else fresh_uuid
    { status := 200, body := keysJson (qkd_key key_ID) key_ID }

/-- check_peer (qupskd.py lines 131-133): when the second-to-last path
segment differs from the configured counterpart identifier, a 404 response
is written. Note that the Python method does NOT return early: the caller
keeps running after the 404 has been sent. The returned list holds the
responses written so far. -/
def check_peer_resp (c : Config) (path : String) : List Http.Resp :=
  if PyStr.idxM2 (PyStr.pySplit '/' path) = c.target_KME_ID then []
  else [Http.notFound]

/-- The state effect of handle_rotate (qupskd.py lines 135-154), shared by
the inbound handler and the lockstep exchange model: on /new the psk is
reset to the startup seed, then fetch_qkd_key stores a fresh identifier and
its key material, and the daemon reverts to the responder role. -/
def rotate_core (c : Config) (s : State) (fresh : String) (isNew : Bool) : State :=
  let s1 := if isNew then { s with psk := sha3_base64 [c.psk, IDENTITY_STRING] } else s
  { s1 with key := some (qkd_key fresh), key_ID := some fresh, initiator := false }

/-- JSON body of the rotate/new 200 response. -/
def rotateJson (key_ID : String) : String :=
  "\x7b\"status\": \"ok\", \"key_ID\": \"" ++ key_ID ++ "\"\x7d"

/-- JSON body of the ack 200 response. -/
def ackJson : String := "\x7b\"status\": \"ok\"\x7d"

/-- handle_rotate as an inbound request (qupskd.py lines 135-154), including
the check_peer defect: on a peer mismatch the 404 is written and the
handler then continues, so the QKD fetch, the state mutation and the 200
response all still happen. -/
def handle_rotate (c : Config) (s : State) (path : String) (fresh : String)
    (isNew : Bool) : State × List Http.Resp :=
  let pre := check_peer_resp c path
  (rotate_core c s fresh isNew, pre ++ [{ status := 200, body := rotateJson fresh }])

/-- The state effect of handle_ack (qupskd.py lines 156-170): commit the
derived psk and reset the wait counter. none models the TypeError raised
by psk_update when no key material is present. -/
def ack_core (s : State) : Option State :=
  (psk_update s).map fun s1 => { s1 with last_rotate := 0 }

/-- handle_ack as an inbound request (qupskd.py lines 156-170), with the
same non-aborting check_peer. When psk_update raises, no 200 is written. -/
def handle_ack (c : Config) (s : State) (path : String) : State × List Http.Resp :=
  let pre := check_peer_resp c path
  match ack_core s with
  | some s1 => (s1, pre ++ [{ status := 200, body := ackJson }])
  | none => (s, pre)

/-- do_GET (qupskd.py lines 177-191): route an inbound request. -/
def serve (c : Config) (s : State) (path : String) (fresh : String) :
    State × List Http.Resp :=
  if PyStr.pyStarts path "/api/v1/peer/" then
    if PyStr.pyEnds path "/new" then handle_rotate c s path fresh true
    else if PyStr.pyEnds path "/rotate" then handle_rotate c s path fresh false
    else if PyStr.pyEnds path "/ack" then handle_ack c s path
    else (s, [Http.notFound])
  else if PyStr.pyStarts path "/api/v1/keys/" && c.enable_fake_qkd_api then
    (s, [handle_keys path fresh])
  else (s, [Http.notFound])

/-- Line 218: the first exchange (no key_ID yet) goes to /new, later ones
to /rotate. -/
def use_new (s : State) : Bool := s.key_ID.isNone

/-- The waiting-window guards of fetch_peer_data (qupskd.py lines 205-214):
an initiator waits while -1 < last_rotate < 120, a responder while
-1 < last_rotate < 130. -/
def wants_wait (s : State) : Bool :=
  if s.initiator then
    decide (-1 < s.last_rotate) && decide (s.last_rotate < INITIATOR_WAIT_SECONDS)
  else
    decide (-1 < s.last_rotate) && decide (s.last_rotate < RESPONDER_WAIT_SECONDS)

/-- The network oracle seen by one pass of fetch_peer_data: the peer's
rotate/new response (the key_ID field of the JSON body; none models a
raised transport/protocol error), the local QKD dec_keys fetch, and the
ack call. -/
structure Net where
  rotate : Bool → Option String
  dec : String → Option String
  ack : Bool

/-- One outbound exchange attempt (qupskd.py lines 218-236) against a
network oracle. Any raised error is caught by the except clause, leaving
the mutations made so far in place: after a successful rotate call the
key_ID is stored; after a successful QKD fetch the key material is stored
and last_rotate is reset; psk_update runs only after the ack call
succeeded. -/
def exchange_attempt (net : Net) (s : State) : State :=
  match net.rotate (use_new s) with
  | none => s
  | some kid =>
    let s1 := { s with key_ID := some kid }
    match net.dec kid with
    | none => s1
    | some key =>
      let s2 := { s1 with key_ID := some kid, key := some key }
      let s3 := { s2 with last_rotate := 0 }
      if net.ack then
        match psk_update s3 with
        | some s4 => s4
        | none => s3
      else s3

/-- One full initiator-driven exchange between two daemons (lines 218-234
on the initiator A composed with the responder B's handle_rotate and
handle_ack on the authorized path): B serves rotate/new and returns the
fresh key_ID, A stores it and fetches the matching key from its fake QKD
source, A resets last_rotate, B commits on ack, A commits. -/
def full_exchange (cB : Config) (sA sB : State) (fresh : String) (isNew : Bool) :
    Option (State × State) :=
  let sB1 := rotate_core cB sB fresh isNew
  let sA1 := { sA with key_ID := some fresh }
  let sA2 := { sA1 with key_ID := some fresh, key := some (qkd_key fresh) }
  let sA3 := { sA2 with last_rotate := 0 }
  match ack_core sB1, psk_update sA3 with
  | some sB2, some sA4 => some (sA4, sB2)
  | _, _ => none

/-- One pass of the fetch_peer_data while-loop (lines 202-237) for the
daemon `self`, with `peer` the daemon serving its requests: wait inside the
role's window (incrementing last_rotate), otherwise become initiator and
run the exchange. -/
def fetch_peer_data_iter (cPeer : Config) (self peer : State) (fresh : String) :
    State × State :=
  if wants_wait self then ({ self with last_rotate := self.last_rotate + 1 }, peer)
  else
    let self1 := if self.initiator then self else { self with initiator := true }
    match full_exchange cPeer self1 peer fresh (use_new self1) with
    | some (a, b) => (a, b)
    | none => (self1, peer)

/-- A two-daemon pairing stepped by a shared clock, with a counter feeding
fresh uuids to the fake QKD source. -/
structure World where
  a : State
  b : State
  n : Nat

def uuidGen (n : Nat) : String := "uuid-" ++ toString n

def initWorld (cA cB : Config) : World :=
  { a := initState cA, b := initState cB, n := 0 }

/-- One shared-clock tick: daemon A runs one loop pass (its exchange, if
any, is served atomically by B), then daemon B runs one loop pass. -/
def tick (cA cB : Config) (w : World) : World :=
  let p1 := fetch_peer_data_iter cB w.a w.b (uuidGen w.n)
  let p2 := fetch_peer_data_iter cA p1.2 p1.1 (uuidGen (w.n + 1))
  { a := p2.2, b := p2.1, n := w.n + 2 }

end qupskd

namespace qkd_simulator

/-- handle_keys (qkd_simulator.py lines 28-54): identical fake QKD API. -/
def handle_keys (path : String) (fresh_uuid : String) : Http.Resp :=
  if PyStr.strHas path "dec_keys" && !(PyStr.strHas path "key_ID=") then
    { status := 400, body := "key_ID parameter is required" }
  else
    let key_ID := if PyStr.strHas path "dec_keys" then
        (PyStr.pySplit '=' path).getLastD ""
      else fresh_uuid
    { status := 200, body :=
      qupskd.keysJson (SHA3.b64encode (SHA3.sha3_256_bytes (SHA3.utf8 key_ID))) key_ID }

/-- do_GET (qkd_simulator.py lines 61-65). -/
def do_GET (path : String) (fresh_uuid : String) : Http.Resp :=
  if PyStr.pyStarts path "/api/v1/keys/" then handle_keys path fresh_uuid
  else Http.notFound

end qkd_simulator

namespace ukms

/-- One peer's state record in the orchestrator (ukms.py main, lines
184-191). `committed` models the content of the written key file
wg2-{alias}.key, the orchestrator's committed PSK for that peer. -/
structure Peer where
  remote_key : Option String
  key : Option String
  key_ID : Option String
  key_update : Bool
  rotate_in_seconds : Int
  committed : Option String

/-- Initial per-peer record (ukms.py lines 184-191). -/
def initPeer : Peer :=
  { remote_key := none
    key := none
    key_ID := none
    key_update := false
    rotate_in_seconds := -1
    committed := none }

/-- handle_keys (ukms.py lines 46-72): identical fake QKD API. -/
def handle_keys (path : String) (fresh_uuid : String) : Http.Resp :=
  if PyStr.strHas path "dec_keys" && !(PyStr.strHas path "key_ID=") then
    { status := 400, body := "key_ID parameter is required" }
  else
    let key_ID := if PyStr.strHas path "dec_keys" then
        (PyStr.pySplit '=' path).getLastD ""
      else fresh_uuid
    { status := 200, body :=
      qupskd.keysJson (SHA3.b64encode (SHA3.sha3_256_bytes (SHA3.utf8 key_ID))) key_ID }

/-- JSON body of the ukms rotate response (line 91). -/
def keyIdJson (key_ID : String) : String :=
  "\x7b\"key_ID\": \"" ++ key_ID ++ "\"\x7d"

/-- handle_rotate (ukms.py lines 74-93): the peer record is looked up from
the path; an unknown peer gets a 404 and the handler returns at once (here,
unlike qupskd.py, the early return is present). Otherwise /new resets the
negotiation state, fetch_qkd_key stores a fresh identifier with its key
material from the (deterministic fake) QKD endpoint, and key_update is
raised. -/
def handle_rotate (peer : Option Peer) (path : String) (fresh : String) :
    Option Peer × List Http.Resp :=
  match peer with
  | none => (none, [Http.notFound])
  | some p =>
    let p1 := if PyStr.pyEnds path "/new" then
        { p with rotate_in_seconds := 0, remote_key := none }
      else p
    let p2 := { p1 with key_ID := some fresh,
                        key := some (SHA3.b64encode (SHA3.sha3_256_bytes (SHA3.utf8 fresh))) }
    (some { p2 with key_update := true }, [{ status := 200, body := keyIdJson fresh }])

/-- Python truthiness of an optional string: None and "" are falsy. -/
def truthyS : Option String → Bool
  | none => false
  | some s => !s.isEmpty

/-- One pass of the update_psk apply loop (ukms.py lines 129-143): when
key_update is set and both key materials are present, concatenate them in
sorted order, hash, and write the base64 digest out as the committed PSK;
then clear key_update. -/
def update_psk_step (p : Peer) : Peer :=
  if p.key_update && truthyS p.remote_key && truthyS p.key then
    let cat := (PyStr.sortStrings [p.remote_key.getD "", p.key.getD ""]).foldl (· ++ ·) ""
    { p with committed := some (SHA3.b64encode (SHA3.sha3_256_bytes (SHA3.utf8 cat)))
             key_update := false }
  else p

/-- Line 154: rotate_in_seconds == -1 selects the /new url. -/
def use_new (p : Peer) : Bool := p.rotate_in_seconds == -1

/-- Line 148: the fetch task waits while rotate_in_seconds > 0. -/
def wants_wait (p : Peer) : Bool := p.rotate_in_seconds > 0

/-- The network oracle seen by one pass of the ukms fetch task: the peer
orchestrator's rotate/new response (keyed by which url was chosen) and the
QKD dec_keys fetch; none models a raised error. -/
structure UNet where
  rotateResp : Bool → Option String
  decResp : String → Option String

/-- One pass of the fetch_peer_data loop (ukms.py lines 146-171): count the
waiting window down; otherwise call the peer (the /new url on the first
ever pass), fetch the matching key material, raise key_update and arm the
rotation cadence; on any raised error arm a 2-second retry instead. -/
def fetch_peer_data_step (krs : Int) (net : UNet) (p : Peer) : Peer :=
  if wants_wait p then { p with rotate_in_seconds := p.rotate_in_seconds - 1 }
  else
    match net.rotateResp (use_new p) with
    | none => { p with rotate_in_seconds := 2 }
    | some kid =>
      match net.decResp kid with
      | none => { p with rotate_in_seconds := 2 }
      | some key =>
        { p with remote_key := some key, key_update := true, rotate_in_seconds := krs }

/-- A two-peer orchestrator world. -/
structure UWorld where
  a : Peer
  b : Peer

/-- One scheduling step of one of peer A's two tasks. -/
inductive ATask where
  | fetch (net : UNet)
  | apply

def runTask (krs : Int) (t : ATask) (p : Peer) : Peer :=
  match t with
  | .fetch net => fetch_peer_data_step krs net p
  | .apply => update_psk_step p

/-- Run one of peer A's tasks inside the two-peer world. -/
def stepA (krs : Int) (t : ATask) (w : UWorld) : UWorld :=
  { w with a := runTask krs t w.a }

/-- Run one of peer B's tasks inside the two-peer world. -/
def stepB (krs : Int) (t : ATask) (w : UWorld) : UWorld :=
  { w with b := runTask krs t w.b }

end ukms

namespace qupskd

/-- The initiator's state after a completed exchange (proof-support
characterization of full_exchange's first component): key material and
identifier stored, wait counter 0, role flag untouched, psk derived from
[fetched key, key_ID, previous psk]. -/
def exchangeA (sA : State) (fresh : String) : State :=
  { key := some (qkd_key fresh), key_ID := some fresh, last_rotate := 0,
    initiator := sA.initiator,
    psk := sha3_base64 [qkd_key fresh, fresh, sA.psk] }

/-- The responder's state after a completed exchange (proof-support
characterization of full_exchange's second component): role reverted to
Responder, wait counter 0, psk derived from [fetched key, key_ID, its psk
as possibly reset to the seed by /new]. -/
def exchangeB (cB : Config) (sB : State) (fresh : String) (isNew : Bool) : State :=
  { key := some (qkd_key fresh), key_ID := some fresh, last_rotate := 0,
    initiator := false,
    psk := sha3_base64 [qkd_key fresh, fresh,
      if isNew then sha3_base64 [cB.psk, IDENTITY_STRING] else sB.psk] }

/-- A full initiator-driven exchange always succeeds and produces exactly
the two states above. -/
theorem full_exchange_eq (cB : Config) (sA sB : State) (fresh : String) (isNew : Bool) :
    full_exchange cB sA sB fresh isNew
      = some (exchangeA sA fresh, exchangeB cB sB fresh isNew) := by
  cases isNew <;>
    simp only [full_exchange, rotate_core, ack_core, psk_update, sha3_base64,
      Option.map, exchangeA, exchangeB, Bool.false_eq_true, if_false,
      eq_self_iff_true, if_true]

/-- A loop pass whose waiting window still runs only ticks the counter. -/
theorem iter_wait (cPeer : Config) (self peer : State) (fresh : String)
    (hw : wants_wait self = true) :
    fetch_peer_data_iter cPeer self peer fresh =
      ({ self with last_rotate := self.last_rotate + 1 }, peer) := by
  unfold fetch_peer_data_iter
  rw [hw]
  simp

/-- A loop pass of a daemon already holding the Initiator role, outside its
window, runs the full exchange. -/
theorem iter_go_initiator (cPeer : Config) (self peer : State) (fresh : String)
    (hw : wants_wait self = false) (hi : self.initiator = true) :
    fetch_peer_data_iter cPeer self peer fresh =
      (exchangeA self fresh, exchangeB cPeer peer fresh (use_new self)) := by
  unfold fetch_peer_data_iter
  rw [hw, hi]
  simp only [Bool.false_eq_true, if_false, if_true, full_exchange_eq]

/-- A loop pass of a Responder outside its window flips it to Initiator and
runs the full exchange. -/
theorem iter_go_responder (cPeer : Config) (self peer : State) (fresh : String)
    (hw : wants_wait self = false) (hi : self.initiator = false) :
    fetch_peer_data_iter cPeer self peer fresh =
      (exchangeA { self with initiator := true } fresh,
       exchangeB cPeer peer fresh (use_new { self with initiator := true })) := by
  unfold fetch_peer_data_iter
  rw [hw, hi]
  simp only [Bool.false_eq_true, if_false, if_true, full_exchange_eq]

end qupskd

/-- C2: the derivation is invariant under permutation of its input list:
derive([a,b]) = derive([b,a]), and for every list of strings and every
permutation of it sha3_base64 gives the same output (the base64 encoding of
the SHA3-256 digest of the concatenation of the sorted parts). -/
theorem claim2_commutative :
    (∀ a b : String, qupskd.sha3_base64 [a, b] = qupskd.sha3_base64 [b, a])
    ∧ ∀ (l l' : List String), l.Perm l' →
        qupskd.sha3_base64 l = qupskd.sha3_base64 l' := by
  have h : ∀ (l l' : List String), l.Perm l' →
      qupskd.sha3_base64 l = qupskd.sha3_base64 l' := by
    intro l l' hp
    unfold qupskd.sha3_base64
    rw [PyStr.sortStrings_perm_eq hp]
  exact ⟨fun a b => h _ _ (List.Perm.swap b a []), h⟩

/-- Witness for C2 at concrete inputs. -/
theorem claim2_witness :
    qupskd.sha3_base64 ["b", "a"] = qupskd.sha3_base64 ["a", "b"] :=
  claim2_commutative.2 ["b", "a"] ["a", "b"] (List.Perm.swap "a" "b" [])

/-- C8: a dec_keys request without the key_ID parameter is answered 400
with exactly the body "key_ID parameter is required" in all three revisions
of the fake QKD API. -/
theorem claim8_dec_keys_400 (path fresh : String)
    (h1 : PyStr.strHas path "dec_keys" = true)
    (h2 : PyStr.strHas path "key_ID=" = false) :
    qupskd.handle_keys path fresh
        = { status := 400, body := "key_ID parameter is required" }
    ∧ qkd_simulator.handle_keys path fresh
        = { status := 400, body := "key_ID parameter is required" }
    ∧ ukms.handle_keys path fresh
        = { status := 400, body := "key_ID parameter is required" } := by
  unfold qupskd.handle_keys qkd_simulator.handle_keys ukms.handle_keys
  rw [h1, h2]
  exact ⟨rfl, rfl, rfl⟩

/-- Witness for C8 at a concrete dec_keys path lacking key_ID. -/
theorem claim8_witness :
    qupskd.handle_keys "/api/v1/keys/SAE1/dec_keys" "u8"
        = { status := 400, body := "key_ID parameter is required" }
    ∧ qkd_simulator.handle_keys "/api/v1/keys/SAE1/dec_keys" "u8"
        = { status := 400, body := "key_ID parameter is required" }
    ∧ ukms.handle_keys "/api/v1/keys/SAE1/dec_keys" "u8"
        = { status := 400, body := "key_ID parameter is required" } :=
  claim8_dec_keys_400 "/api/v1/keys/SAE1/dec_keys" "u8" (by decide) (by decide)

/-- C10: both daemon variants start with the wait counter at -1, a value
outside every waiting-window guard, so the very first loop pass skips both
windows, takes the Initiator path, and issues a /new request; the
orchestrator's per-peer record likewise starts at -1 and its first fetch
pass selects the /new url. -/
theorem claim10_first_iteration (c cPeer : qupskd.Config) (peer : qupskd.State)
    (fresh : String) :
    (qupskd.initState c).last_rotate = -1
    ∧ (qupskd.initState c).initiator = false
    ∧ qupskd.wants_wait (qupskd.initState c) = false
    ∧ qupskd.use_new (qupskd.initState c) = true
    ∧ (∃ a b, qupskd.fetch_peer_data_iter cPeer (qupskd.initState c) peer fresh = (a, b)
        ∧ a.initiator = true ∧ a.key_ID = some fresh)
    ∧ ukms.initPeer.rotate_in_seconds = -1
    ∧ ukms.wants_wait ukms.initPeer = false
    ∧ ukms.use_new ukms.initPeer = true := by
  refine ⟨rfl, rfl, rfl, rfl, ?_, rfl, rfl, rfl⟩
  rw [qupskd.iter_go_responder cPeer (qupskd.initState c) peer fresh rfl rfl]
  exact ⟨_, _, rfl, rfl, rfl⟩

/-- C1 (amended): after one full initiator-driven exchange both currentPSKs
are byte-identical, given both sides started with the same previous PSK
and, when the exchange is a /new, that shared PSK is the startup seed
(which /new forces on the responder before deriving). -/
theorem claim1_amended (cB : qupskd.Config) (sA sB : qupskd.State) (fresh : String)
    (isNew : Bool) (hpsk : sA.psk = sB.psk)
    (hnew : isNew = true → sA.psk = qupskd.sha3_base64 [cB.psk, qupskd.IDENTITY_STRING]) :
    ∃ sA2 sB2, qupskd.full_exchange cB sA sB fresh isNew = some (sA2, sB2)
      ∧ sA2.psk = sB2.psk := by
  refine ⟨_, _, qupskd.full_exchange_eq cB sA sB fresh isNew, ?_⟩
  simp only [qupskd.exchangeA, qupskd.exchangeB]
  cases isNew with
  | false => rw [if_neg Bool.false_ne_true, hpsk]
  | true => rw [if_pos rfl, hnew rfl]

set_option maxRecDepth 100000 in
/-- C1 counterexample: a /new exchange started with equal previous PSKs
("x" on both sides, different from the startup seed) completes with
different PSKs, because /new resets only the responder's PSK to the seed. -/
theorem claim1_counterexample :
    (qupskd.full_exchange
        { psk := "", target_KME_ID := "B", enable_fake_qkd_api := true }
        { key := none, key_ID := none, last_rotate := 5, initiator := true, psk := "x" }
        { key := none, key_ID := none, last_rotate := 5, initiator := false, psk := "x" }
        "u1" true).map (fun p => decide (p.1.psk = p.2.psk)) = some false := by
  decide

/-- Witness for C1 (amended) at a concrete /rotate exchange. -/
theorem claim1_witness :
    ∃ sA2 sB2, qupskd.full_exchange
        { psk := "", target_KME_ID := "B", enable_fake_qkd_api := true }
        { key := none, key_ID := some "k0", last_rotate := 5, initiator := true, psk := "p" }
        { key := none, key_ID := none, last_rotate := 5, initiator := false, psk := "p" }
        "u1" false = some (sA2, sB2) ∧ sA2.psk = sB2.psk :=
  claim1_amended _ _ _ "u1" false rfl (fun h => nomatch h)

/-- C5 (amended): after the initiator side completes an exchange it resets
its own waitCounter to 0 but KEEPS the Initiator role; it is the responder
side that ends the exchange with the Responder role (and counter 0). -/
theorem claim5_amended (cPeer : qupskd.Config) (self peer : qupskd.State) (fresh : String)
    (hi : self.initiator = true) (hw : qupskd.wants_wait self = false) :
    ∃ a b, qupskd.fetch_peer_data_iter cPeer self peer fresh = (a, b)
      ∧ a.last_rotate = 0 ∧ a.initiator = true
      ∧ b.initiator = false ∧ b.last_rotate = 0 := by
  rw [qupskd.iter_go_initiator cPeer self peer fresh hw hi]
  refine ⟨_, _, rfl, rfl, ?_, rfl, rfl⟩
  simp only [qupskd.exchangeA]
  exact hi

/-- C5 counterexample: a concrete initiator whose window has elapsed
completes the exchange and still holds the Initiator role (the claim says
it reverts to Responder), even though its counter was reset to 0. -/
theorem claim5_counterexample :
    ((qupskd.fetch_peer_data_iter
        { psk := "", target_KME_ID := "A", enable_fake_qkd_api := true }
        { key := some "K", key_ID := some "k0", last_rotate := 120, initiator := true, psk := "p" }
        { key := none, key_ID := none, last_rotate := 100, initiator := false, psk := "p" }
        "u5").1).initiator = true
    ∧ ((qupskd.fetch_peer_data_iter
        { psk := "", target_KME_ID := "A", enable_fake_qkd_api := true }
        { key := some "K", key_ID := some "k0", last_rotate := 120, initiator := true, psk := "p" }
        { key := none, key_ID := none, last_rotate := 100, initiator := false, psk := "p" }
        "u5").1).last_rotate = 0 := ⟨rfl, rfl⟩

/-- Witness for C5 (amended) at a concrete state. -/
theorem claim5_witness :
    ∃ a b, qupskd.fetch_peer_data_iter
        { psk := "", target_KME_ID := "A", enable_fake_qkd_api := true }
        { key := some "K", key_ID := some "k0", last_rotate := 120, initiator := true, psk := "p" }
        { key := none, key_ID := none, last_rotate := 100, initiator := false, psk := "p" }
        "u5" = (a, b)
      ∧ a.last_rotate = 0 ∧ a.initiator = true
      ∧ b.initiator = false ∧ b.last_rotate = 0 :=
  claim5_amended _ _ _ "u5" rfl rfl

namespace qupskd

/-- Characterization of the waiting-window guard. -/
theorem wants_wait_true_iff (s : State) :
    wants_wait s = true ↔
      (-1 < s.last_rotate ∧ s.last_rotate < (if s.initiator then 120 else 130)) := by
  unfold wants_wait INITIATOR_WAIT_SECONDS RESPONDER_WAIT_SECONDS
  cases h : s.initiator <;> simp

/-- The invariant holding after every tick of the two-daemon lockstep
simulation: daemon A keeps the Initiator role, daemon B stays Responder,
and B's wait counter trails A's by exactly one inside the windows. -/
def roleInv (w : World) : Prop :=
  w.a.initiator = true ∧ w.b.initiator = false ∧
  w.b.last_rotate = w.a.last_rotate + 1 ∧
  0 ≤ w.a.last_rotate ∧ w.a.last_rotate ≤ 120

/-- The invariant is established by the first tick: both daemons start as
Responder with counter -1; A skips the window, self-elects Initiator and
completes a /new exchange (resetting B's counter via ack), after which B
waits inside its window. -/
theorem roleInv_first (cA cB : Config) : roleInv (tick cA cB (initWorld cA cB)) := by
  simp only [tick, initWorld]
  rw [iter_go_responder cB (initState cA) (initState cB) (uuidGen 0) rfl rfl]
  dsimp only
  rw [iter_wait]
  · dsimp only [exchangeA, exchangeB]
    exact ⟨rfl, rfl, by norm_num, by norm_num, by norm_num⟩
  · rfl

/-- The invariant is preserved by every tick: while A's initiator window
runs, both sides only tick their counters; when it elapses (counter 120),
A re-runs the exchange, resetting both counters, keeping its Initiator
role, and re-asserting B's Responder role — B's window (130) never elapses
because B's counter stays one ahead of A's and at most 121. -/
theorem roleInv_tick (cA cB : Config) (w : World) (h : roleInv w) :
    roleInv (tick cA cB w) := by
  obtain ⟨ha, hb, hrel, h0, h120⟩ := h
  simp only [tick]
  by_cases hcase : w.a.last_rotate < 120
  · have hwA : wants_wait w.a = true := by
      rw [wants_wait_true_iff, ha, if_pos rfl]
      exact ⟨by omega, hcase⟩
    rw [iter_wait cB w.a w.b (uuidGen w.n) hwA]
    dsimp only
    have hwB : wants_wait w.b = true := by
      rw [wants_wait_true_iff, hb, if_neg Bool.false_ne_true]
      constructor <;> omega
    rw [iter_wait cA w.b _ (uuidGen (w.n + 1)) hwB]
    dsimp only [roleInv]
    refine ⟨ha, hb, ?_, ?_, ?_⟩ <;> omega
  · have hwA : wants_wait w.a = false := by
      rw [Bool.eq_false_iff, Ne, wants_wait_true_iff, ha, if_pos rfl]
      omega
    rw [iter_go_initiator cB w.a w.b (uuidGen w.n) hwA ha]
    dsimp only
    rw [iter_wait]
    · dsimp only [roleInv, exchangeA, exchangeB]
      exact ⟨ha, rfl, by norm_num, by norm_num, by norm_num⟩
    · rfl

/-- The invariant holds after every positive number of ticks. -/
theorem roleInv_iterate (cA cB : Config) (m : Nat) :
    roleInv ((tick cA cB)^[m] (tick cA cB (initWorld cA cB))) := by
  induction m with
  | zero => exact roleInv_first cA cB
  | succ k ih =>
    rw [Function.iterate_succ_apply']
    exact roleInv_tick cA cB _ ih

end qupskd

/-- C6: in the two-daemon pairing stepped by a shared clock, after the
first full rotation cycle there is never a tick at which both daemons hold
the Initiator role (daemon B in fact remains Responder for ever, so it
never flips inside its waiting window). -/
theorem claim6_role_exclusivity (cA cB : qupskd.Config) (n : Nat) (hn : 1 ≤ n) :
    ¬ (((qupskd.tick cA cB)^[n] (qupskd.initWorld cA cB)).a.initiator = true
       ∧ ((qupskd.tick cA cB)^[n] (qupskd.initWorld cA cB)).b.initiator = true) := by
  obtain ⟨m, rfl⟩ : ∃ m, n = m + 1 := ⟨n - 1, by omega⟩
  rw [Function.iterate_succ_apply]
  intro hc
  have h := (qupskd.roleInv_iterate cA cB m).2.1
  rw [h] at hc
  exact absurd hc.2 (by simp)

/-- Witness for C6 at n = 1 with concrete configurations. -/
theorem claim6_witness :
    ¬ (((qupskd.tick { psk := "s", target_KME_ID := "B", enable_fake_qkd_api := true }
          { psk := "s", target_KME_ID := "A", enable_fake_qkd_api := true })^[1]
        (qupskd.initWorld { psk := "s", target_KME_ID := "B", enable_fake_qkd_api := true }
          { psk := "s", target_KME_ID := "A", enable_fake_qkd_api := true })).a.initiator = true
       ∧ (((qupskd.tick { psk := "s", target_KME_ID := "B", enable_fake_qkd_api := true }
          { psk := "s", target_KME_ID := "A", enable_fake_qkd_api := true })^[1]
        (qupskd.initWorld { psk := "s", target_KME_ID := "B", enable_fake_qkd_api := true }
          { psk := "s", target_KME_ID := "A", enable_fake_qkd_api := true })).b.initiator = true)) :=
  claim6_role_exclusivity
    { psk := "s", target_KME_ID := "B", enable_fake_qkd_api := true }
    { psk := "s", target_KME_ID := "A", enable_fake_qkd_api := true } 1 (by decide)

/-- C3 (amended): qupskd's psk_update commits the commutative derivation of
exactly the three parts [key, key_ID, previous psk]; the ukms orchestrator's
update_psk instead commits the commutative derivation of exactly the TWO
parts [remote_key, key] — the previous PSK and the key identifier are not
inputs there (the committed value is invariant under any change of the
stored key_ID). -/
theorem claim3_amended :
    (∀ (s : qupskd.State) (k kid : String), s.key = some k → s.key_ID = some kid →
        qupskd.psk_update s = some { s with psk := qupskd.sha3_base64 [k, kid, s.psk] })
    ∧ (∀ (p : ukms.Peer) (rk k : String), p.key_update = true →
        p.remote_key = some rk → p.key = some k →
        rk.isEmpty = false → k.isEmpty = false →
        ukms.update_psk_step p
          = { p with committed := some (qupskd.sha3_base64 [rk, k]), key_update := false })
    ∧ (∀ (rk k kid1 kid2 : Option String) (ku : Bool) (ris : Int) (cm : Option String),
        (ukms.update_psk_step ⟨rk, k, kid1, ku, ris, cm⟩).committed
          = (ukms.update_psk_step ⟨rk, k, kid2, ku, ris, cm⟩).committed) := by
  refine ⟨?_, ?_, ?_⟩
  · intro s k kid h1 h2
    simp only [qupskd.psk_update, qupskd.sha3_base64, h1, h2]
  · intro p rk k h1 h2 h3 h4 h5
    simp only [ukms.update_psk_step, ukms.truthyS, qupskd.sha3_base64, String.join,
      h1, h2, h3, h4, h5, Option.getD, Bool.not_false, Bool.and_self, if_true]
  · intro rk k kid1 kid2 ku ris cm
    unfold ukms.update_psk_step
    dsimp only
    by_cases hc : (ku && ukms.truthyS rk && ukms.truthyS k) = true
    · rw [if_pos hc, if_pos hc]
    · rw [if_neg hc, if_neg hc]

set_option maxRecDepth 100000 in
/-- C3 counterexample: at a concrete orchestrator peer record the committed
value ignores the stored key identifier entirely and differs from the
three-part derivation {previous PSK, key material, key identifier} the
claim prescribes (for either choice of key material). -/
theorem claim3_counterexample :
    (ukms.update_psk_step ⟨some "B", some "A", some "C", true, 0, none⟩).committed
      = (ukms.update_psk_step ⟨some "B", some "A", some "D", true, 0, none⟩).committed
    ∧ (ukms.update_psk_step ⟨some "B", some "A", some "C", true, 0, none⟩).committed
      ≠ some (qupskd.sha3_base64 ["", "A", "C"])
    ∧ (ukms.update_psk_step ⟨some "B", some "A", some "C", true, 0, none⟩).committed
      ≠ some (qupskd.sha3_base64 ["", "B", "C"]) :=
  ⟨rfl, by decide, by decide⟩

/-- Witness for C3 (amended) at concrete states. -/
theorem claim3_witness :
    qupskd.psk_update
        { key := some "K", key_ID := some "I", last_rotate := 0, initiator := false, psk := "P" }
      = some { key := some "K", key_ID := some "I", last_rotate := 0, initiator := false,
               psk := qupskd.sha3_base64 ["K", "I", "P"] }
    ∧ ukms.update_psk_step ⟨some "R", some "K2", some "C", true, 7, none⟩
      = ⟨some "R", some "K2", some "C", false, 7, some (qupskd.sha3_base64 ["R", "K2"])⟩ :=
  ⟨claim3_amended.1 _ "K" "I" rfl rfl,
   claim3_amended.2.1 _ "R" "K2" rfl rfl rfl rfl rfl⟩

/-- C4 (amended): an outbound exchange attempt that fails at any step (the
rotate call, the QKD fetch, or the ack call) leaves currentPSK unchanged,
and an inbound /rotate never touches it; but an inbound /new immediately
resets currentPSK to the startup seed even when no /ack ever follows. -/
theorem claim4_amended (net : qupskd.Net) (s : qupskd.State) (c : qupskd.Config)
    (fresh : String) :
    ((net.rotate (qupskd.use_new s) = none ∨ net.ack = false ∨
        (∀ kid, net.rotate (qupskd.use_new s) = some kid → net.dec kid = none)) →
      (qupskd.exchange_attempt net s).psk = s.psk)
    ∧ (qupskd.rotate_core c s fresh false).psk = s.psk
    ∧ (qupskd.rotate_core c s fresh true).psk
        = qupskd.sha3_base64 [c.psk, qupskd.IDENTITY_STRING] := by
  refine ⟨?_, ?_, ?_⟩
  · intro h
    unfold qupskd.exchange_attempt
    cases hr : net.rotate (qupskd.use_new s) with
    | none => rfl
    | some kid =>
      cases hd : net.dec kid with
      | none => simp only [hd]
      | some key =>
        cases ha : net.ack with
        | false => simp only [hd, ha, Bool.false_eq_true, if_false]
        | true =>
          exfalso
          rcases h with h | h | h
          · rw [hr] at h; exact Option.noConfusion h
          · rw [ha] at h; exact Bool.noConfusion h
          · rw [h kid hr] at hd; exact Option.noConfusion hd
  · simp only [qupskd.rotate_core, Bool.false_eq_true, if_false]
  · simp only [qupskd.rotate_core, eq_self_iff_true, if_true]

set_option maxRecDepth 100000 in
/-- C4 counterexample: one inbound /new request with no /ack (served on the
authorized path) replaces the psk "x" by the startup seed, so the partial
exchange does mutate currentPSK. -/
theorem claim4_counterexample :
    ((qupskd.serve { psk := "", target_KME_ID := "bob", enable_fake_qkd_api := false }
        { key := none, key_ID := none, last_rotate := 3, initiator := false, psk := "x" }
        "/api/v1/peer/bob/new" "u4").1).psk ≠ "x" := by
  decide

/-- Witness for C4 (amended) with a failing rotate call and concrete
inbound requests. -/
theorem claim4_witness :
    (qupskd.exchange_attempt
        { rotate := fun _ => none, dec := fun _ => none, ack := false }
        { key := none, key_ID := none, last_rotate := 0, initiator := true, psk := "w" }).psk
      = "w"
    ∧ (qupskd.rotate_core { psk := "q", target_KME_ID := "T", enable_fake_qkd_api := false }
        { key := none, key_ID := none, last_rotate := 0, initiator := true, psk := "w" }
        "u" false).psk = "w"
    ∧ (qupskd.rotate_core { psk := "q", target_KME_ID := "T", enable_fake_qkd_api := false }
        { key := none, key_ID := none, last_rotate := 0, initiator := true, psk := "w" }
        "u" true).psk = qupskd.sha3_base64 ["q", qupskd.IDENTITY_STRING] :=
  ⟨(claim4_amended { rotate := fun _ => none, dec := fun _ => none, ack := false }
      { key := none, key_ID := none, last_rotate := 0, initiator := true, psk := "w" }
      { psk := "q", target_KME_ID := "T", enable_fake_qkd_api := false } "u").1 (Or.inl rfl),
   (claim4_amended { rotate := fun _ => none, dec := fun _ => none, ack := false }
      { key := none, key_ID := none, last_rotate := 0, initiator := true, psk := "w" }
      { psk := "q", target_KME_ID := "T", enable_fake_qkd_api := false } "u").2.1,
   (claim4_amended { rotate := fun _ => none, dec := fun _ => none, ack := false }
      { key := none, key_ID := none, last_rotate := 0, initiator := true, psk := "w" }
      { psk := "q", target_KME_ID := "T", enable_fake_qkd_api := false } "u").2.2⟩

set_option maxRecDepth 100000 in
/-- C7: the check_peer defect evaluated at a failing input. A /new request
whose path identifier EVE does not match the configured counterpart bob is
answered with a 404 AND then still served: a second (200) response is
written, the QKD fetch stores a fresh key_ID, and the psk is reset to the
seed — contradicting the claim that nothing happens beyond the 404. A
request to an unknown path, in contrast, really is a pure 404 no-op. -/
theorem claim7_check_peer_bug :
    ((qupskd.serve { psk := "", target_KME_ID := "bob", enable_fake_qkd_api := false }
        { key := none, key_ID := none, last_rotate := 7, initiator := true, psk := "p" }
        "/api/v1/peer/EVE/new" "u7").2).map Http.Resp.status = [404, 200]
    ∧ ((qupskd.serve { psk := "", target_KME_ID := "bob", enable_fake_qkd_api := false }
        { key := none, key_ID := none, last_rotate := 7, initiator := true, psk := "p" }
        "/api/v1/peer/EVE/new" "u7").1).key_ID = some "u7"
    ∧ ((qupskd.serve { psk := "", target_KME_ID := "bob", enable_fake_qkd_api := false }
        { key := none, key_ID := none, last_rotate := 7, initiator := true, psk := "p" }
        "/api/v1/peer/EVE/new" "u7").1).psk
        = qupskd.sha3_base64 ["", qupskd.IDENTITY_STRING]
    ∧ qupskd.serve { psk := "", target_KME_ID := "bob", enable_fake_qkd_api := false }
        { key := none, key_ID := none, last_rotate := 7, initiator := true, psk := "p" }
        "/api/v1/zzz" "u7"
        = ({ key := none, key_ID := none, last_rotate := 7, initiator := true, psk := "p" },
           [Http.notFound]) := by
  refine ⟨by decide, rfl, by decide, rfl⟩

/-- Proof-support inputs for the C9 isolation scenario: a network where
every call fails, and one where every call succeeds. -/
def net9F : ukms.UNet := { rotateResp := fun _ => none, decResp := fun _ => none }

def net9S : ukms.UNet := { rotateResp := fun _ => some "kid9", decResp := fun _ => some "RK9" }

/-- The C9 scenario trace: peer A's fetch fails, peer B serves an inbound
rotate, fetches successfully, applies, while A fails again. -/
def w9run : ukms.UWorld :=
  let w0 : ukms.UWorld := { a := ukms.initPeer, b := ukms.initPeer }
  let w1 := ukms.stepA 300 (.fetch net9F) w0
  let w2 : ukms.UWorld :=
    { w1 with b := ((ukms.handle_rotate (some w1.b) "/api/v1/peer/p2/rotate" "u9").1).getD w1.b }
  let w3 := ukms.stepB 300 (.fetch net9S) w2
  let w4 := ukms.stepB 300 ukms.ATask.apply w3
  ukms.stepA 300 (.fetch net9F) w4

set_option maxRecDepth 100000 in
/-- C9: any sequence of peer A's fetch/apply task steps leaves every field
of peer B's record unchanged; and in a concrete run where A's QKD endpoint
always fails while B's always succeeds, B reaches a committed PSK while A
has committed nothing and is still in its retry backoff. -/
theorem claim9_peer_isolation :
    (∀ (krs : Int) (w : ukms.UWorld) (ts : List ukms.ATask),
        (ts.foldl (fun w t => ukms.stepA krs t w) w).b = w.b)
    ∧ w9run.b.committed.isSome = true
    ∧ w9run.a.committed = none
    ∧ w9run.a.remote_key = none
    ∧ w9run.a.key_update = false := by
  refine ⟨?_, by decide, rfl, rfl, rfl⟩
  intro krs w ts
  induction ts generalizing w with
  | nil => rfl
  | cons t ts ih => rw [List.foldl_cons]; exact (ih _).trans rfl
